import Mathlib

/-!
A shallow embedding of `src/fairy_tale/fairy_tale.py`.

The program drives an OpenAI "assistant" through per-topic pipelines
(`FairyTale.get_fairy_tale`), gathered concurrently by
`FairyTale.write_fairy_tales`, and renders the results to a PDF
(`PDF.save_fairy_tales`).

Remote calls are modelled by an environment (`PipelineEnv`) that fixes, for
each call the pipeline makes, its observable outcome: `Except.ok` for a
normal return and `Except.error` for a raised `OpenAIError`.  Sequential
Python control flow becomes sequential Lean control flow; each function also
returns the list of remote calls it performed (`Ev`), so that statements
about call ordering and resource release can be made.  The polling loop of
`wait_for_response` is given explicit fuel: the value `POut.timeout` stands
for the loop still running after `fuel` status observations (the Python loop
has no bound and simply keeps polling).  `asyncio.gather` returns results in
submission order and propagates a child's exception to the caller; the
embedding of `write_fairy_tales` reflects exactly that.
-/

/-- The run statuses of the OpenAI Runs API.  The code treats `queued` and
`in_progress` as "still pending" and everything else as terminal. -/
inductive RunStatus where
  | queued
  | in_progress
  | requires_action
  | cancelling
  | cancelled
  | failed
  | completed
  | incomplete
  | expired
deriving DecidableEq, Repr

/-- The loop condition of `wait_for_response`:
`run.status == "queued" or run.status == "in_progress"`. -/
def RunStatus.pending : RunStatus → Bool
  | .queued => true
  | .in_progress => true
  | _ => false

/-- The author of a thread message (`message.role`). -/
inductive Role where
  | user
  | assistant
deriving DecidableEq, Repr

/-- A thread message as the pipeline consumes it: its role and the text of
its first content block (`message.content[0].text.value`). -/
structure Msg where
  role : Role
  text : String
deriving DecidableEq, Repr

/-- A remote call performed by a pipeline.  `post_msg k` / `create_run k` /
`retrieve_run k` are tagged with the exchange number `k` (1 = content run,
2 = title run).  `checked k s` records the polling loop of exchange `k`
examining status `s` — the evaluation of its `while` condition. -/
inductive Ev where
  | create_thread
  | post_msg (k : Nat) (text : String)
  | create_run (k : Nat)
  | retrieve_run (k : Nat)
  | checked (k : Nat) (s : RunStatus)
  | list_msgs
  | delete_thread
deriving DecidableEq, Repr

/-- Observable outcome of a pipeline step: the polling loop ran out of fuel
(`timeout`, modelling a loop that has not yet exited), an `OpenAIError`
propagated (`raised`), or the code returned a value (`ok`). -/
inductive POut (α : Type) where
  | timeout
  | raised
  | ok (a : α)
deriving DecidableEq, Repr

def POut.isRaised : POut α → Bool
  | .raised => true
  | _ => false

def POut.isTimeout : POut α → Bool
  | .timeout => true
  | _ => false

/-- Extracts the value the Python coroutine returned, if it returned. -/
def POut.result? : POut (Option α) → Option α
  | .ok r => r
  | _ => none

/-- The remote service as one per-topic pipeline observes it.  `run1 0` /
`run2 0` are the outcomes of `runs.create` (the created run's status), and
`run1 (n+1)` / `run2 (n+1)` the outcomes of the n-th `runs.retrieve` of that
exchange.  `list_msgs` is the thread's message list in ascending
(chronological) order, as served for `order="asc"`. -/
structure PipelineEnv where
  create_thread : Except Unit Unit
  post_msg1 : Except Unit Unit
  run1 : Nat → Except Unit RunStatus
  post_msg2 : Except Unit Unit
  run2 : Nat → Except Unit RunStatus
  list_msgs : Except Unit (List Msg)
  delete_thread : Except Unit Unit

/-- The i-th status observation of an exchange is `runs.create` for `i = 0`
and `runs.retrieve` afterwards. -/
def req_ev (k i : Nat) : Ev :=
  if i = 0 then .create_run k else .retrieve_run k

/-- The body of `wait_for_response`: request status number `i`
(create, then retrieves), and keep retrieving while the observed status is
`queued`/`in_progress`.  Fuel bounds the number of status requests. -/
def wait_loop (σ : Nat → Except Unit RunStatus) (k : Nat) :
    Nat → Nat → List Ev × POut RunStatus
  | 0, _ => ([], .timeout)
  | fuel + 1, i =>
    match σ i with
    | .error _ => ([req_ev k i], .raised)
    | .ok s =>
      if s.pending then
        let r := wait_loop σ k fuel (i + 1)
        (req_ev k i :: .checked k s :: r.1, r.2)
      else
        ([req_ev k i, .checked k s], .ok s)

/-- `FairyTale.wait_for_response`: create a run, poll until its status
leaves `queued`/`in_progress`, return the final run. -/
def wait_for_response (σ : Nat → Except Unit RunStatus) (k : Nat)
    (fuel : Nat) : List Ev × POut RunStatus :=
  wait_loop σ k fuel 0

/-- The texts the returned generator yields:
`message.content[0].text.value for message in messages.data
if message.role == "assistant"`, over the ascending message list. -/
def assistant_texts (msgs : List Msg) : List String :=
  (msgs.filter fun m => m.role == Role.assistant).map Msg.text

/-- `FairyTale.get_fairy_tale`: create a thread, post the first prompt, wait
for run 1, post the second prompt, wait for run 2, list the messages, delete
the thread, and return the assistant texts when both runs completed, `None`
otherwise.  Returns the calls performed together with the outcome. -/
def get_fairy_tale (fp sp : String) (env : PipelineEnv) (fuel : Nat) :
    List Ev × POut (Option (List String)) :=
  match env.create_thread with
  | .error _ => ([.create_thread], .raised)
  | .ok _ =>
    match env.post_msg1 with
    | .error _ => ([.create_thread, .post_msg 1 fp], .raised)
    | .ok _ =>
      let w1 := wait_for_response env.run1 1 fuel
      let tr0 := Ev.create_thread :: Ev.post_msg 1 fp :: w1.1
      match w1.2 with
      | .timeout => (tr0, .timeout)
      | .raised => (tr0, .raised)
      | .ok s1 =>
        match env.post_msg2 with
        | .error _ => (tr0 ++ [.post_msg 2 sp], .raised)
        | .ok _ =>
          let w2 := wait_for_response env.run2 2 fuel
          let tr1 := tr0 ++ Ev.post_msg 2 sp :: w2.1
          match w2.2 with
          | .timeout => (tr1, .timeout)
          | .raised => (tr1, .raised)
          | .ok s2 =>
            match env.list_msgs with
            | .error _ => (tr1 ++ [.list_msgs], .raised)
            | .ok msgs =>
              match env.delete_thread with
              | .error _ => (tr1 ++ [.list_msgs, .delete_thread], .raised)
              | .ok _ =>
                if s1 = RunStatus.completed ∧ s2 = RunStatus.completed then
                  (tr1 ++ [.list_msgs, .delete_thread],
                   .ok (some (assistant_texts msgs)))
                else
                  (tr1 ++ [.list_msgs, .delete_thread], .ok none)

/-- The outcome of one per-topic pipeline, without its call trace. -/
def pipeline_out (fp sp : String) (env : PipelineEnv) (fuel : Nat) :
    POut (Option (List String)) :=
  (get_fairy_tale fp sp env fuel).2

/-- What one topic (at its submission index) contributes to the result
list: the pipeline's returned value, when it returned one. -/
def topic_result (fp sp : String) (envs : Nat → PipelineEnv) (fuel : Nat)
    (p : Nat × String) : Option (List String) :=
  (pipeline_out (fp ++ p.2 ++ ".") sp (envs p.1) fuel).result?

/-- `FairyTale.write_fairy_tales`: run one `get_fairy_tale` per topic with
prompt `first_prompt + topic + "."`, gather them (`asyncio.gather` keeps
submission order and re-raises a child's exception), drop the `None`s, and
turn each remaining generator into a tuple (here: keep it as the list of
texts).  `envs i` is the remote service as seen by the pipeline of the i-th
topic. -/
def write_fairy_tales (fp sp : String) (topics : List String)
    (envs : Nat → PipelineEnv) (fuel : Nat) : POut (List (List String)) :=
  let outs := topics.enum.map fun p =>
    pipeline_out (fp ++ p.2 ++ ".") sp (envs p.1) fuel
  if outs.any POut.isRaised then .raised
  else if outs.any POut.isTimeout then .timeout
  else .ok (outs.filterMap POut.result?)

/-- The `topics` property setter: `raise ValueError` unless some element of
the assigned list is truthy (a non-empty string).  `args` is the 1-tuple
holding the assigned value, so `not args` is always false and the check is
`not any(value)`. -/
def set_topics (value : List String) : Except Unit (List String) :=
  if value.any fun s => !(s == "") then .ok value else .error ()

/-- A Python value as `PDF.save_fairy_tales` inspects it: a `str` or
anything else. -/
inductive PyVal where
  | str (s : String)
  | other
deriving DecidableEq, Repr

/-- `isinstance(v, str)`. -/
def PyVal.isStr : PyVal → Bool
  | .str _ => true
  | .other => false

/-- The document-building actions of `PDF.save_fairy_tales`.  `output` is
`self.output(self.path)`, the only step that writes the file to disk. -/
inductive PdfStep where
  | title_page
  | subtitle (t : String)
  | content (text : String) (is_last : Bool)
  | output
deriving DecidableEq, Repr

/-- The `for i, (content, title) in enumerate(responses)` loop: valid string
pairs add a subtitle and their content (a new page unless last); any other
entry raises `ValueError` on the spot.  Returns the steps performed and
whether the loop raised. -/
def save_loop (n : Nat) : Nat → List (PyVal × PyVal) → List PdfStep × Bool
  | _, [] => ([], false)
  | i, (c, t) :: rest =>
    match c, t with
    | .str cs, .str ts =>
      let r := save_loop n (i + 1) rest
      (PdfStep.subtitle ts :: PdfStep.content cs (i == n - 1) :: r.1, r.2)
    | _, _ => ([], true)

/-- `PDF.save_fairy_tales`: title page, one section per response, then write
the file — unless the loop raised, in which case `self.output` is never
reached. -/
def save_fairy_tales (responses : List (PyVal × PyVal)) :
    List PdfStep × Bool :=
  let r := save_loop responses.length 0 responses
  if r.2 then (PdfStep.title_page :: r.1, true)
  else (PdfStep.title_page :: r.1 ++ [PdfStep.output], false)

/-! ### Helper lemmas about the polling loop -/

theorem req_ev_ne_post (k i a : Nat) (b : String) :
    req_ev k i ≠ Ev.post_msg a b := by
  unfold req_ev
  split <;> simp

theorem wait_loop_err (σ : Nat → Except Unit RunStatus) (k fuel i : Nat)
    (e : Unit) (h : σ i = Except.error e) :
    wait_loop σ k (fuel + 1) i = ([req_ev k i], POut.raised) := by
  simp [wait_loop, h]

theorem wait_loop_go (σ : Nat → Except Unit RunStatus) (k fuel i : Nat)
    (s : RunStatus) (h : σ i = Except.ok s) (hp : s.pending = true) :
    wait_loop σ k (fuel + 1) i =
      (req_ev k i :: Ev.checked k s :: (wait_loop σ k fuel (i + 1)).1,
       (wait_loop σ k fuel (i + 1)).2) := by
  simp [wait_loop, h, hp]

theorem wait_loop_done (σ : Nat → Except Unit RunStatus) (k fuel i : Nat)
    (s : RunStatus) (h : σ i = Except.ok s) (hp : s.pending = false) :
    wait_loop σ k (fuel + 1) i =
      ([req_ev k i, Ev.checked k s], POut.ok s) := by
  simp [wait_loop, h, hp]

theorem wait_loop_ok_pending (σ : Nat → Except Unit RunStatus) (k : Nat) :
    ∀ fuel i s, (wait_loop σ k fuel i).2 = POut.ok s → s.pending = false := by
  intro fuel
  induction fuel with
  | zero => intro i s h; simp [wait_loop] at h
  | succ n ih =>
    intro i s h
    cases hσ : σ i with
    | error e => rw [wait_loop_err σ k n i e hσ] at h; simp at h
    | ok s0 =>
      cases hp : s0.pending with
      | true =>
        rw [wait_loop_go σ k n i s0 hσ hp] at h
        exact ih (i + 1) s h
      | false =>
        rw [wait_loop_done σ k n i s0 hσ hp] at h
        simp at h
        subst h
        exact hp

theorem wait_loop_ok_split (σ : Nat → Except Unit RunStatus) (k : Nat) :
    ∀ fuel i s, (wait_loop σ k fuel i).2 = POut.ok s →
      ∃ tr, (wait_loop σ k fuel i).1 = tr ++ [Ev.checked k s] := by
  intro fuel
  induction fuel with
  | zero => intro i s h; simp [wait_loop] at h
  | succ n ih =>
    intro i s h
    cases hσ : σ i with
    | error e => rw [wait_loop_err σ k n i e hσ] at h; simp at h
    | ok s0 =>
      cases hp : s0.pending with
      | true =>
        rw [wait_loop_go σ k n i s0 hσ hp] at h ⊢
        obtain ⟨tr, htr⟩ := ih (i + 1) s h
        exact ⟨req_ev k i :: Ev.checked k s0 :: tr, by simp [htr]⟩
      | false =>
        rw [wait_loop_done σ k n i s0 hσ hp] at h ⊢
        simp at h
        subst h
        exact ⟨[req_ev k i], by simp⟩

theorem wait_loop_no_post (σ : Nat → Except Unit RunStatus) (k : Nat) :
    ∀ fuel i a b, Ev.post_msg a b ∉ (wait_loop σ k fuel i).1 := by
  intro fuel
  induction fuel with
  | zero => intro i a b; simp [wait_loop]
  | succ n ih =>
    intro i a b
    cases hσ : σ i with
    | error e =>
      rw [wait_loop_err σ k n i e hσ]
      simpa using (req_ev_ne_post k i a b).symm
    | ok s0 =>
      cases hp : s0.pending with
      | true =>
        rw [wait_loop_go σ k n i s0 hσ hp]
        intro hmem
        rcases List.mem_cons.mp hmem with h1 | hmem
        · exact req_ev_ne_post k i a b h1.symm
        rcases List.mem_cons.mp hmem with h1 | hmem
        · cases h1
        · exact ih (i + 1) a b hmem
      | false =>
        rw [wait_loop_done σ k n i s0 hσ hp]
        intro hmem
        rcases List.mem_cons.mp hmem with h1 | hmem
        · exact req_ev_ne_post k i a b h1.symm
        · simp at hmem

theorem wait_loop_terminates (τ : Nat → RunStatus) (k : Nat) :
    ∀ n i, (τ (i + n)).pending = false →
      ∃ s, (wait_loop (fun m => Except.ok (τ m)) k (n + 1) i).2 = POut.ok s ∧
        s.pending = false := by
  intro n
  induction n with
  | zero =>
    intro i h
    simp only [Nat.add_zero] at h
    rw [wait_loop_done _ k 0 i (τ i) rfl h]
    exact ⟨τ i, rfl, h⟩
  | succ n ih =>
    intro i h
    cases hp : (τ i).pending with
    | true =>
      have h2 : (τ ((i + 1) + n)).pending = false := by
        rw [show (i + 1) + n = i + (n + 1) by omega]
        exact h
      obtain ⟨s, hs, hsp⟩ := ih (i + 1) h2
      rw [wait_loop_go _ k (n + 1) i (τ i) rfl hp]
      exact ⟨s, hs, hsp⟩
    | false =>
      rw [wait_loop_done _ k (n + 1) i (τ i) rfl hp]
      exact ⟨τ i, rfl, hp⟩

/-! ### Helper lemmas about one pipeline -/

theorem get_fairy_tale_runs (fp sp : String) (env : PipelineEnv) (fuel : Nat)
    (s1 s2 : RunStatus) (msgs : List Msg)
    (h1 : env.create_thread = Except.ok ())
    (h2 : env.post_msg1 = Except.ok ())
    (h3 : (wait_for_response env.run1 1 fuel).2 = POut.ok s1)
    (h4 : env.post_msg2 = Except.ok ())
    (h5 : (wait_for_response env.run2 2 fuel).2 = POut.ok s2)
    (h6 : env.list_msgs = Except.ok msgs)
    (h7 : env.delete_thread = Except.ok ()) :
    get_fairy_tale fp sp env fuel =
      ((Ev.create_thread :: Ev.post_msg 1 fp ::
          (wait_for_response env.run1 1 fuel).1 ++
        Ev.post_msg 2 sp :: (wait_for_response env.run2 2 fuel).1 ++
        [Ev.list_msgs, Ev.delete_thread]),
       if s1 = RunStatus.completed ∧ s2 = RunStatus.completed
       then POut.ok (some (assistant_texts msgs))
       else POut.ok none) := by
  simp only [get_fairy_tale, h1, h2, h3, h4, h5, h6, h7]
  split <;> simp

theorem pipeline_ok_elim (fp sp : String) (env : PipelineEnv) (fuel : Nat)
    (r : Option (List String))
    (h : pipeline_out fp sp env fuel = POut.ok r) :
    env.create_thread = Except.ok () ∧ env.post_msg1 = Except.ok () ∧
    ∃ s1 s2 msgs,
      (wait_for_response env.run1 1 fuel).2 = POut.ok s1 ∧
      env.post_msg2 = Except.ok () ∧
      (wait_for_response env.run2 2 fuel).2 = POut.ok s2 ∧
      env.list_msgs = Except.ok msgs ∧
      env.delete_thread = Except.ok () ∧
      r = (if s1 = RunStatus.completed ∧ s2 = RunStatus.completed
           then some (assistant_texts msgs) else none) := by
  cases h1 : env.create_thread with
  | error e => simp [pipeline_out, get_fairy_tale, h1] at h
  | ok u =>
  cases u
  cases h2 : env.post_msg1 with
  | error e => simp [pipeline_out, get_fairy_tale, h1, h2] at h
  | ok u =>
  cases u
  cases h3 : (wait_for_response env.run1 1 fuel).2 with
  | timeout => simp [pipeline_out, get_fairy_tale, h1, h2, h3] at h
  | raised => simp [pipeline_out, get_fairy_tale, h1, h2, h3] at h
  | ok s1 =>
  cases h4 : env.post_msg2 with
  | error e => simp [pipeline_out, get_fairy_tale, h1, h2, h3, h4] at h
  | ok u =>
  cases u
  cases h5 : (wait_for_response env.run2 2 fuel).2 with
  | timeout => simp [pipeline_out, get_fairy_tale, h1, h2, h3, h4, h5] at h
  | raised => simp [pipeline_out, get_fairy_tale, h1, h2, h3, h4, h5] at h
  | ok s2 =>
  cases h6 : env.list_msgs with
  | error e => simp [pipeline_out, get_fairy_tale, h1, h2, h3, h4, h5, h6] at h
  | ok msgs =>
  cases h7 : env.delete_thread with
  | error e =>
    simp [pipeline_out, get_fairy_tale, h1, h2, h3, h4, h5, h6, h7] at h
  | ok u =>
  cases u
  refine ⟨rfl, rfl, s1, s2, msgs, rfl, rfl, rfl, rfl, rfl, ?_⟩
  rw [pipeline_out, get_fairy_tale_runs fp sp env fuel s1 s2 msgs
    h1 h2 h3 h4 h5 h6 h7] at h
  by_cases hc : s1 = RunStatus.completed ∧ s2 = RunStatus.completed
  · rw [if_pos hc] at h
    rw [if_pos hc]
    simpa using h.symm
  · rw [if_neg hc] at h
    rw [if_neg hc]
    simpa using h.symm

theorem get_trace_post2 (fp sp : String) (env : PipelineEnv) (fuel : Nat)
    (s1 : RunStatus)
    (h1 : env.create_thread = Except.ok ())
    (h2 : env.post_msg1 = Except.ok ())
    (h3 : (wait_for_response env.run1 1 fuel).2 = POut.ok s1) :
    ∃ rest, (get_fairy_tale fp sp env fuel).1 =
      Ev.create_thread :: Ev.post_msg 1 fp ::
        (wait_for_response env.run1 1 fuel).1 ++ Ev.post_msg 2 sp :: rest := by
  cases h4 : env.post_msg2 with
  | error e =>
    exact ⟨[], by simp [get_fairy_tale, h1, h2, h3, h4]⟩
  | ok u =>
  cases u
  cases h5 : (wait_for_response env.run2 2 fuel).2 with
  | timeout =>
    exact ⟨(wait_for_response env.run2 2 fuel).1,
      by simp [get_fairy_tale, h1, h2, h3, h4, h5]⟩
  | raised =>
    exact ⟨(wait_for_response env.run2 2 fuel).1,
      by simp [get_fairy_tale, h1, h2, h3, h4, h5]⟩
  | ok s2 =>
  cases h6 : env.list_msgs with
  | error e =>
    exact ⟨(wait_for_response env.run2 2 fuel).1 ++ [Ev.list_msgs],
      by simp [get_fairy_tale, h1, h2, h3, h4, h5, h6]⟩
  | ok msgs =>
  cases h7 : env.delete_thread with
  | error e =>
    exact ⟨(wait_for_response env.run2 2 fuel).1 ++
        [Ev.list_msgs, Ev.delete_thread],
      by simp [get_fairy_tale, h1, h2, h3, h4, h5, h6, h7]⟩
  | ok u =>
    cases u
    refine ⟨(wait_for_response env.run2 2 fuel).1 ++
        [Ev.list_msgs, Ev.delete_thread], ?_⟩
    rw [get_fairy_tale_runs fp sp env fuel s1 s2 msgs h1 h2 h3 h4 h5 h6 h7]
    simp

/-! ### Helper lemmas about the gathered orchestration -/

theorem write_ok_elim (fp sp : String) (topics : List String)
    (envs : Nat → PipelineEnv) (fuel : Nat) (l : List (List String))
    (h : write_fairy_tales fp sp topics envs fuel = POut.ok l) :
    l = topics.enum.filterMap (topic_result fp sp envs fuel) := by
  simp only [write_fairy_tales] at h
  split at h
  · simp at h
  · split at h
    · simp at h
    · simp only [POut.ok.injEq] at h
      subst h
      rw [List.filterMap_map]
      rfl

theorem write_raised_of_mem (fp sp : String) (topics : List String)
    (envs : Nat → PipelineEnv) (fuel : Nat) (p : Nat × String)
    (hp : p ∈ topics.enum)
    (h : pipeline_out (fp ++ p.2 ++ ".") sp (envs p.1) fuel = POut.raised) :
    write_fairy_tales fp sp topics envs fuel = POut.raised := by
  simp only [write_fairy_tales]
  have hany : (topics.enum.map fun q =>
      pipeline_out (fp ++ q.2 ++ ".") sp (envs q.1) fuel).any
        POut.isRaised = true := by
    rw [List.any_eq_true]
    exact ⟨POut.raised, List.mem_map.mpr ⟨p, hp, h⟩, rfl⟩
  rw [if_pos hany]

theorem write_ok_of_returns (fp sp : String) (topics : List String)
    (envs : Nat → PipelineEnv) (fuel : Nat)
    (h : ∀ p ∈ topics.enum,
      ∃ r, pipeline_out (fp ++ p.2 ++ ".") sp (envs p.1) fuel = POut.ok r) :
    write_fairy_tales fp sp topics envs fuel =
      POut.ok (topics.enum.filterMap (topic_result fp sp envs fuel)) := by
  simp only [write_fairy_tales]
  have hr : (topics.enum.map fun q =>
      pipeline_out (fp ++ q.2 ++ ".") sp (envs q.1) fuel).any
        POut.isRaised = false := by
    rw [List.any_eq_false]
    intro o ho
    obtain ⟨p, hp, hpo⟩ := List.mem_map.mp ho
    obtain ⟨r, hro⟩ := h p hp
    rw [← hpo, hro]
    simp [POut.isRaised]
  have ht : (topics.enum.map fun q =>
      pipeline_out (fp ++ q.2 ++ ".") sp (envs q.1) fuel).any
        POut.isTimeout = false := by
    rw [List.any_eq_false]
    intro o ho
    obtain ⟨p, hp, hpo⟩ := List.mem_map.mp ho
    obtain ⟨r, hro⟩ := h p hp
    rw [← hpo, hro]
    simp [POut.isTimeout]
  rw [if_neg (by simp [hr]), if_neg (by simp [ht]), List.filterMap_map]
  rfl

theorem exists_sublist_filterMap {α β : Type} (xs : List α)
    (f : α → Option β) :
    ∃ ts : List α, List.Sublist ts xs ∧ ts.filterMap f = xs.filterMap f ∧
      ∀ x ∈ ts, (f x).isSome := by
  induction xs with
  | nil => exact ⟨[], List.Sublist.slnil, rfl, by simp⟩
  | cons y ys ih =>
    obtain ⟨ts, hsub, heq, hsome⟩ := ih
    cases hf : f y with
    | none =>
      refine ⟨ts, List.Sublist.cons y hsub, ?_, hsome⟩
      rw [heq, List.filterMap_cons_none hf]
    | some b =>
      refine ⟨y :: ts, List.Sublist.cons₂ y hsub, ?_, ?_⟩
      · rw [List.filterMap_cons_some hf, List.filterMap_cons_some hf, heq]
      · intro x hx
        rcases List.mem_cons.mp hx with hx | hx
        · rw [hx, hf]
          rfl
        · exact hsome x hx

/-! ### Concrete remote-service behaviours -/

/-- A thread holding one assistant message per run. -/
def msgs_ok : List Msg :=
  [⟨Role.user, "p1"⟩, ⟨Role.assistant, "story"⟩,
   ⟨Role.user, "p2"⟩, ⟨Role.assistant, "title"⟩]

/-- A fully successful service: every call returns, both runs are
`completed` at once, one assistant message per run. -/
def env_ok : PipelineEnv where
  create_thread := Except.ok ()
  post_msg1 := Except.ok ()
  run1 := fun _ => Except.ok RunStatus.completed
  post_msg2 := Except.ok ()
  run2 := fun _ => Except.ok RunStatus.completed
  list_msgs := Except.ok msgs_ok
  delete_thread := Except.ok ()

/-- Every call returns, but the second run ends `failed`. -/
def env_failed2 : PipelineEnv where
  create_thread := Except.ok ()
  post_msg1 := Except.ok ()
  run1 := fun _ => Except.ok RunStatus.completed
  post_msg2 := Except.ok ()
  run2 := fun _ => Except.ok RunStatus.failed
  list_msgs := Except.ok msgs_ok
  delete_thread := Except.ok ()

/-- The first `messages.create` raises an `OpenAIError`. -/
def env_msg1_raises : PipelineEnv where
  create_thread := Except.ok ()
  post_msg1 := Except.error ()
  run1 := fun _ => Except.ok RunStatus.completed
  post_msg2 := Except.ok ()
  run2 := fun _ => Except.ok RunStatus.completed
  list_msgs := Except.ok msgs_ok
  delete_thread := Except.ok ()

/-- `threads.create` itself raises an `OpenAIError`. -/
def env_ct_raises : PipelineEnv where
  create_thread := Except.error ()
  post_msg1 := Except.ok ()
  run1 := fun _ => Except.ok RunStatus.completed
  post_msg2 := Except.ok ()
  run2 := fun _ => Except.ok RunStatus.completed
  list_msgs := Except.ok msgs_ok
  delete_thread := Except.ok ()

/-- A successful service on whose thread the first run produced two
assistant messages, so three assistant messages exist in total. -/
def env_three : PipelineEnv where
  create_thread := Except.ok ()
  post_msg1 := Except.ok ()
  run1 := fun _ => Except.ok RunStatus.completed
  post_msg2 := Except.ok ()
  run2 := fun _ => Except.ok RunStatus.completed
  list_msgs := Except.ok [⟨Role.user, "p1"⟩, ⟨Role.assistant, "s1"⟩,
    ⟨Role.assistant, "s2"⟩, ⟨Role.user, "p2"⟩, ⟨Role.assistant, "t"⟩]
  delete_thread := Except.ok ()

/-! ### The claims -/

/-- C1: for every non-empty topic list, whenever `write_fairy_tales`
returns a result list, that list has at most as many entries as there are
topics, and its entries are exactly the successful pipeline results of a
subsequence of the indexed topics, taken in submission order — whatever
behaviour (and hence completion order) the per-topic services exhibit. -/
theorem c1_results_ordered_subsequence
    (fp sp : String) (topics : List String) (envs : Nat → PipelineEnv)
    (fuel : Nat) (l : List (List String))
    (hne : topics ≠ [])
    (h : write_fairy_tales fp sp topics envs fuel = POut.ok l) :
    l.length ≤ topics.length ∧
    ∃ ts, List.Sublist ts topics.enum ∧
      l = ts.filterMap (topic_result fp sp envs fuel) ∧
      ∀ p ∈ ts, (topic_result fp sp envs fuel p).isSome := by
  have hl := write_ok_elim fp sp topics envs fuel l h
  constructor
  · rw [hl]
    calc (topics.enum.filterMap (topic_result fp sp envs fuel)).length
        ≤ topics.enum.length := List.length_filterMap_le _ _
      _ = topics.length := List.enum_length
  · obtain ⟨ts, hsub, heq, hsome⟩ :=
      exists_sublist_filterMap topics.enum (topic_result fp sp envs fuel)
    exact ⟨ts, hsub, by rw [hl, heq], hsome⟩

/-- Witness for C1 at one topic and a fully successful service. -/
theorem c1_results_ordered_subsequence_witness :
    [["story", "title"]].length ≤ ["a"].length ∧
    ∃ ts, List.Sublist ts (["a"].enum) ∧
      [["story", "title"]] =
        ts.filterMap (topic_result "W" "T" (fun _ => env_ok) 1) ∧
      ∀ p ∈ ts, (topic_result "W" "T" (fun _ => env_ok) 1 p).isSome :=
  c1_results_ordered_subsequence "W" "T" ["a"] (fun _ => env_ok) 1
    [["story", "title"]] (by simp) rfl

/-- C2 as stated is false: the pipeline of topic "a" hits a remote error
(`messages.create` raises), and `write_fairy_tales` raises — even though the
sibling pipeline of topic "b" succeeds on its own, its result is not
returned.  `get_fairy_tale` has no try/except and `asyncio.gather` re-raises
a child's exception. -/
theorem c2_counterexample :
    write_fairy_tales "W" "T" ["a", "b"]
      (fun i => if i = 0 then env_msg1_raises else env_ok) 1 = POut.raised ∧
    pipeline_out ("W" ++ "b" ++ ".") "T" env_ok 1 =
      POut.ok (some ["story", "title"]) := by
  exact ⟨rfl, rfl⟩

/-- C2 amended: a per-topic run that ends in a non-completed status yields
no result for that topic only — when every pipeline returns (no remote call
raises), `write_fairy_tales` returns, each topic contributing exactly its
own pipeline's result; but a remote error raised inside any one pipeline
propagates out of `write_fairy_tales` (dropping the siblings' results). -/
theorem c2_amended_isolation_only_without_errors
    (fp sp : String) (topics : List String) (envs : Nat → PipelineEnv)
    (fuel : Nat) :
    ((∀ p ∈ topics.enum,
        ∃ r, pipeline_out (fp ++ p.2 ++ ".") sp (envs p.1) fuel = POut.ok r) →
      write_fairy_tales fp sp topics envs fuel =
        POut.ok (topics.enum.filterMap (topic_result fp sp envs fuel)))
    ∧ (∀ p ∈ topics.enum,
        pipeline_out (fp ++ p.2 ++ ".") sp (envs p.1) fuel = POut.raised →
      write_fairy_tales fp sp topics envs fuel = POut.raised) :=
  ⟨write_ok_of_returns fp sp topics envs fuel,
   fun p hp h => write_raised_of_mem fp sp topics envs fuel p hp h⟩

/-- Witness for the amended C2: a failed run is dropped without raising,
while a raised remote error propagates. -/
theorem c2_amended_witness :
    write_fairy_tales "W" "T" ["a"] (fun _ => env_failed2) 1 = POut.ok [] ∧
    write_fairy_tales "W" "T" ["a"] (fun _ => env_msg1_raises) 1 =
      POut.raised := by
  constructor
  · have h := (c2_amended_isolation_only_without_errors "W" "T" ["a"]
      (fun _ => env_failed2) 1).1 (by
        intro p hp
        rw [show (["a"].enum) = [(0, "a")] from rfl, List.mem_singleton] at hp
        subst hp
        exact ⟨none, rfl⟩)
    simpa using h
  · exact (c2_amended_isolation_only_without_errors "W" "T" ["a"]
      (fun _ => env_msg1_raises) 1).2 (0, "a") (by simp) rfl

/-- C3: a per-topic pipeline returns a result exactly under the status
gate `run1.status == "completed" and run2.status == "completed"`: a
success implies both waits returned `completed`, and if both waits return
but either status is not `completed`, the pipeline returns `None`
(provided the remaining remote calls also return). -/
theorem c3_success_iff_both_completed
    (fp sp : String) (env : PipelineEnv) (fuel : Nat) :
    (∀ texts, pipeline_out fp sp env fuel = POut.ok (some texts) →
      (wait_for_response env.run1 1 fuel).2 = POut.ok RunStatus.completed ∧
      (wait_for_response env.run2 2 fuel).2 = POut.ok RunStatus.completed)
    ∧ (∀ s1 s2 msgs,
      env.create_thread = Except.ok () → env.post_msg1 = Except.ok () →
      (wait_for_response env.run1 1 fuel).2 = POut.ok s1 →
      env.post_msg2 = Except.ok () →
      (wait_for_response env.run2 2 fuel).2 = POut.ok s2 →
      env.list_msgs = Except.ok msgs →
      env.delete_thread = Except.ok () →
      ¬(s1 = RunStatus.completed ∧ s2 = RunStatus.completed) →
      pipeline_out fp sp env fuel = POut.ok none) := by
  constructor
  · intro texts h
    obtain ⟨h1, h2, s1, s2, msgs, h3, h4, h5, h6, h7, hr⟩ :=
      pipeline_ok_elim fp sp env fuel (some texts) h
    by_cases hc : s1 = RunStatus.completed ∧ s2 = RunStatus.completed
    · obtain ⟨hc1, hc2⟩ := hc
      subst hc1
      subst hc2
      exact ⟨h3, h5⟩
    · rw [if_neg hc] at hr
      cases hr
  · intro s1 s2 msgs h1 h2 h3 h4 h5 h6 h7 hc
    rw [pipeline_out,
      get_fairy_tale_runs fp sp env fuel s1 s2 msgs h1 h2 h3 h4 h5 h6 h7]
    simp only [if_neg hc]

/-- Witness for C3: a success forces both waits to `completed`, and a
`failed` second run yields `None`. -/
theorem c3_witness :
    ((wait_for_response env_ok.run1 1 1).2 = POut.ok RunStatus.completed ∧
     (wait_for_response env_ok.run2 2 1).2 = POut.ok RunStatus.completed) ∧
    pipeline_out "P" "T" env_failed2 1 = POut.ok none := by
  constructor
  · exact (c3_success_iff_both_completed "P" "T" env_ok 1).1
      ["story", "title"] rfl
  · exact (c3_success_iff_both_completed "P" "T" env_failed2 1).2
      RunStatus.completed RunStatus.failed msgs_ok
      rfl rfl rfl rfl rfl rfl rfl (by decide)

/-- C4 as stated is false: a list holding only the whitespace string " " is
accepted by the topics setter — `any` only tests Python truthiness, and a
whitespace string is truthy — so a whitespace topic is not rejected at
construction and can be sent to the remote service. -/
theorem c4_counterexample :
    set_topics [" "] = Except.ok [" "] ∧
    set_topics [" "] ≠ Except.error () := by
  constructor
  · rfl
  · intro h
    cases h

/-- C4 amended: the setter raises `ValueError` exactly when the assigned
list has no truthy element — when it is empty or every string in it is
empty.  Whitespace-only (non-empty) strings are truthy and are accepted. -/
theorem c4_amended_rejects_only_all_empty (value : List String) :
    set_topics value = Except.error () ↔ ∀ s ∈ value, s = "" := by
  constructor
  · intro h s hs
    by_contra hne
    have hany : (value.any fun s => !(s == "")) = true :=
      List.any_eq_true.mpr ⟨s, hs, by simp [hne]⟩
    rw [set_topics, if_pos hany] at h
    cases h
  · intro h
    have hany : (value.any fun s => !(s == "")) = false := by
      rw [List.any_eq_false]
      intro s hs
      simp [h s hs]
    rw [set_topics, if_neg (by simp [hany])]

/-- C5 as stated is false: when the first `messages.create` raises, the
pipeline ends with the error, the thread was acquired
(`threads.create` succeeded and is in the trace) but `threads.delete` is
never called — the delete is not in a finally block. -/
theorem c5_counterexample :
    (get_fairy_tale "P" "T" env_msg1_raises 1).2 = POut.raised ∧
    Ev.create_thread ∈ (get_fairy_tale "P" "T" env_msg1_raises 1).1 ∧
    Ev.delete_thread ∉ (get_fairy_tale "P" "T" env_msg1_raises 1).1 := by
  refine ⟨rfl, by decide, by decide⟩

/-- C5 amended: the thread is deleted on every exit path on which the
pipeline returns — success or runs ending in any non-completed status —
but not when a remote call raises before the delete; and a failing delete
raises rather than being logged. -/
theorem c5_amended_delete_on_returning_paths
    (fp sp : String) (env : PipelineEnv) (fuel : Nat)
    (r : Option (List String))
    (h : pipeline_out fp sp env fuel = POut.ok r) :
    Ev.delete_thread ∈ (get_fairy_tale fp sp env fuel).1 := by
  obtain ⟨h1, h2, s1, s2, msgs, h3, h4, h5, h6, h7, _⟩ :=
    pipeline_ok_elim fp sp env fuel r h
  rw [get_fairy_tale_runs fp sp env fuel s1 s2 msgs h1 h2 h3 h4 h5 h6 h7]
  simp

/-- Witness for the amended C5: the thread is deleted even though the
second run ended `failed`. -/
theorem c5_amended_witness :
    Ev.delete_thread ∈ (get_fairy_tale "P" "T" env_failed2 1).1 :=
  c5_amended_delete_on_returning_paths "P" "T" env_failed2 1 none rfl

/-- C6: if the service eventually reports a status other than
`queued`/`in_progress`, the polling loop of `wait_for_response` exits
(some fuel suffices) and the returned run's status is neither `queued` nor
`in_progress`. -/
theorem c6_polling_terminates_nonpending (τ : Nat → RunStatus)
    (h : ∃ n, (τ n).pending = false) :
    ∃ fuel s,
      (wait_for_response (fun m => Except.ok (τ m)) 1 fuel).2 = POut.ok s ∧
      s ≠ RunStatus.queued ∧ s ≠ RunStatus.in_progress := by
  obtain ⟨n, hn⟩ := h
  obtain ⟨s, hs, hsp⟩ := wait_loop_terminates τ 1 n 0 (by simpa using hn)
  refine ⟨n + 1, s, by simpa [wait_for_response] using hs, ?_, ?_⟩
  · rintro rfl
    simp [RunStatus.pending] at hsp
  · rintro rfl
    simp [RunStatus.pending] at hsp

/-- Witness for C6: two `queued` polls followed by `completed`. -/
theorem c6_witness :
    ∃ fuel s,
      (wait_for_response
        (fun m => Except.ok
          (if m < 2 then RunStatus.queued else RunStatus.completed))
        1 fuel).2 = POut.ok s ∧
      s ≠ RunStatus.queued ∧ s ≠ RunStatus.in_progress :=
  c6_polling_terminates_nonpending
    (fun m => if m < 2 then RunStatus.queued else RunStatus.completed)
    ⟨2, by decide⟩

/-- C7 as stated is false: with a single topic whose pipeline fails because
`threads.create` raises, every pipeline has failed, yet `write_fairy_tales`
raises instead of returning an empty list. -/
theorem c7_counterexample :
    write_fairy_tales "W" "T" ["a"] (fun _ => env_ct_raises) 1 =
      POut.raised := rfl

/-- C7 amended: when every per-topic pipeline fails by returning `None`
(runs ending non-completed, no remote call raising), `write_fairy_tales`
returns the empty list without raising; a pipeline failing by a raised
remote error instead makes it raise. -/
theorem c7_amended_all_none_gives_empty
    (fp sp : String) (topics : List String) (envs : Nat → PipelineEnv)
    (fuel : Nat)
    (h : ∀ p ∈ topics.enum,
      pipeline_out (fp ++ p.2 ++ ".") sp (envs p.1) fuel = POut.ok none) :
    write_fairy_tales fp sp topics envs fuel = POut.ok [] := by
  rw [write_ok_of_returns fp sp topics envs fuel (fun p hp => ⟨none, h p hp⟩)]
  congr 1
  rw [List.filterMap_eq_nil_iff]
  intro p hp
  simp [topic_result, h p hp, POut.result?]

/-- Witness for the amended C7: two topics, both runs failing. -/
theorem c7_amended_witness :
    write_fairy_tales "W" "T" ["a", "b"] (fun _ => env_failed2) 1 =
      POut.ok [] :=
  c7_amended_all_none_gives_empty "W" "T" ["a", "b"] (fun _ => env_failed2) 1
    (by decide)

/-- C8: whenever the second (title) message is posted, the call trace
splits at an observation of a first-run status that is not
`queued`/`in_progress`, and the posting lies strictly after it: the title
prompt is only sent once the first run has left those states. -/
theorem c8_title_posted_after_first_run_terminal
    (fp sp : String) (env : PipelineEnv) (fuel : Nat)
    (h : Ev.post_msg 2 sp ∈ (get_fairy_tale fp sp env fuel).1) :
    ∃ l1 s l2, (get_fairy_tale fp sp env fuel).1 =
        l1 ++ Ev.checked 1 s :: l2 ∧
      s.pending = false ∧ Ev.post_msg 2 sp ∈ l2 := by
  cases h1 : env.create_thread with
  | error e => simp [get_fairy_tale, h1] at h
  | ok u =>
  cases u
  cases h2 : env.post_msg1 with
  | error e => simp [get_fairy_tale, h1, h2] at h
  | ok u =>
  cases u
  cases h3 : (wait_for_response env.run1 1 fuel).2 with
  | timeout =>
    simp [get_fairy_tale, h1, h2, h3] at h
    exact absurd h (wait_loop_no_post env.run1 1 fuel 0 2 sp)
  | raised =>
    simp [get_fairy_tale, h1, h2, h3] at h
    exact absurd h (wait_loop_no_post env.run1 1 fuel 0 2 sp)
  | ok s1 =>
    obtain ⟨rest, hrest⟩ := get_trace_post2 fp sp env fuel s1 h1 h2 h3
    obtain ⟨tr, htr⟩ := wait_loop_ok_split env.run1 1 fuel 0 s1 h3
    have hpend : s1.pending = false :=
      wait_loop_ok_pending env.run1 1 fuel 0 s1 h3
    refine ⟨Ev.create_thread :: Ev.post_msg 1 fp :: tr, s1,
      Ev.post_msg 2 sp :: rest, ?_, hpend, List.mem_cons_self _ _⟩
    rw [hrest,
      show (wait_for_response env.run1 1 fuel).1 = tr ++ [Ev.checked 1 s1]
        from htr]
    simp

/-- Witness for C8 on a fully successful service. -/
theorem c8_witness :
    ∃ l1 s l2, (get_fairy_tale "P" "T" env_ok 1).1 =
        l1 ++ Ev.checked 1 s :: l2 ∧
      s.pending = false ∧ Ev.post_msg 2 "T" ∈ l2 :=
  c8_title_posted_after_first_run_terminal "P" "T" env_ok 1 (by decide)

/-! ### Helper lemmas about the document step -/

theorem save_loop_no_output (n : Nat) :
    ∀ rs i, PdfStep.output ∉ (save_loop n i rs).1 := by
  intro rs
  induction rs with
  | nil => intro i; simp [save_loop]
  | cons q rest ih =>
    intro i
    obtain ⟨c, t⟩ := q
    cases c with
    | str cs =>
      cases t with
      | str ts =>
        simp only [save_loop]
        intro hmem
        rcases List.mem_cons.mp hmem with h1 | hmem
        · cases h1
        rcases List.mem_cons.mp hmem with h1 | hmem
        · cases h1
        · exact ih (i + 1) hmem
      | other => simp [save_loop]
    | other => simp [save_loop]

theorem save_loop_raises (n : Nat) :
    ∀ rs i, (∃ p ∈ rs, p.1.isStr = false ∨ p.2.isStr = false) →
      (save_loop n i rs).2 = true := by
  intro rs
  induction rs with
  | nil => rintro i ⟨p, hp, _⟩; cases hp
  | cons q rest ih =>
    rintro i ⟨p, hp, hbad⟩
    obtain ⟨c, t⟩ := q
    cases c with
    | str cs =>
      cases t with
      | str ts =>
        simp only [save_loop]
        rcases List.mem_cons.mp hp with h1 | hmem
        · subst h1
          simp [PyVal.isStr] at hbad
        · exact ih (i + 1) ⟨p, hmem, hbad⟩
      | other => simp [save_loop]
    | other => simp [save_loop]

/-- C9: if any entry of the response list has a non-string content or
title, `save_fairy_tales` raises `ValueError` and `self.output` — the only
step that writes the file — is never performed. -/
theorem c9_invalid_entry_raises_before_output
    (responses : List (PyVal × PyVal))
    (h : ∃ p ∈ responses, p.1.isStr = false ∨ p.2.isStr = false) :
    (save_fairy_tales responses).2 = true ∧
    PdfStep.output ∉ (save_fairy_tales responses).1 := by
  have hraise := save_loop_raises responses.length responses 0 h
  simp only [save_fairy_tales, hraise, if_pos]
  refine ⟨trivial, ?_⟩
  intro hmem
  rcases List.mem_cons.mp hmem with h1 | hmem
  · cases h1
  · exact save_loop_no_output responses.length responses 0 hmem

/-- Witness for C9: a response whose title is not a string. -/
theorem c9_witness :
    (save_fairy_tales [(PyVal.str "c", PyVal.other)]).2 = true ∧
    PdfStep.output ∉ (save_fairy_tales [(PyVal.str "c", PyVal.other)]).1 :=
  c9_invalid_entry_raises_before_output [(PyVal.str "c", PyVal.other)]
    ⟨(PyVal.str "c", PyVal.other), by simp, Or.inr rfl⟩

/-- C10: when a pipeline succeeds, the value it returns is the text of
every assistant-authored message of the thread, in ascending order —
`write_fairy_tales` then turns it into one tuple — and nothing enforces
that this tuple is a pair: a service on whose thread the assistant left
three messages makes `write_fairy_tales` return a 3-element entry. -/
theorem c10_success_is_all_assistant_texts
    (fp sp : String) (env : PipelineEnv) (fuel : Nat) (msgs : List Msg)
    (texts : List String)
    (hm : env.list_msgs = Except.ok msgs)
    (h : pipeline_out fp sp env fuel = POut.ok (some texts)) :
    texts = (msgs.filter fun m => m.role == Role.assistant).map Msg.text ∧
    ∃ e f ts, write_fairy_tales "W" "T" ["a"] (fun _ => e) f =
        POut.ok [ts] ∧ ts.length = 3 := by
  constructor
  · obtain ⟨h1, h2, s1, s2, msgs2, h3, h4, h5, h6, h7, hr⟩ :=
      pipeline_ok_elim fp sp env fuel (some texts) h
    rw [hm] at h6
    cases h6
    by_cases hc : s1 = RunStatus.completed ∧ s2 = RunStatus.completed
    · rw [if_pos hc] at hr
      simpa [assistant_texts] using hr
    · rw [if_neg hc] at hr
      cases hr
  · exact ⟨env_three, 1, ["s1", "s2", "t"], rfl, rfl⟩

/-- Witness for C10 on the fully successful two-message service. -/
theorem c10_witness :
    ["story", "title"] =
      (msgs_ok.filter fun m => m.role == Role.assistant).map Msg.text ∧
    ∃ e f ts, write_fairy_tales "W" "T" ["a"] (fun _ => e) f =
        POut.ok [ts] ∧ ts.length = 3 :=
  c10_success_is_all_assistant_texts "P" "T" env_ok 1 msgs_ok
    ["story", "title"] rfl rfl
